import Mathlib

/-!
Shallow embedding of the `restocks_api_wrapper` Python client
(`restocks_client/client.py`, `restocks_client/product.py`,
`restocks_client/utils/helpers.py`) and proofs about the claims of its
specification.

Conventions of the embedding:
* Python values that may be `None` become `Option`; fallible code
  (Python exceptions) returns `Option`/`Except`.
* Python truthiness (`not x`, `if x`) is modelled explicitly per type
  (`0`, `""`, `[]`, `{}` and `None` are falsy).
* Heterogeneous JSON scalars that flow into `parse_int` are modelled by
  `JVal` (integer or string).
* Network I/O is modelled by passing the relevant server responses as
  explicit function arguments; where a claim speaks about which requests
  are issued, the embedding additionally returns the list of issued
  requests (instrumentation of the traced calls, written next to the
  faithful control flow of the source).
-/

namespace Restocks

/-- A JSON scalar as it reaches the numeric parsers: an int or a string. -/
inductive JVal where
  | jint : Int → JVal
  | jstr : String → JVal
deriving DecidableEq

/-- Python truthiness of a `JVal` (`0` and `""` are falsy). -/
def JVal.truthy : JVal → Bool
  | .jint n => n != 0
  | .jstr s => s != ""

/-- Python truthiness of `dict.get(key)` for a scalar value: `None` (absent key),
`0` and `""` are falsy. -/
def truthyOpt : Option JVal → Bool
  | none => false
  | some v => v.truthy

/-- Python truthiness of an optional string (`None` and `""` are falsy). -/
def truthyStr : Option String → Bool
  | none => false
  | some s => s != ""

/-- Python truthiness of an optional int (`None` and `0` are falsy). -/
def truthyOptInt : Option Int → Bool
  | none => false
  | some n => n != 0

/-! ## `utils/helpers.py` -/

/-- `re.search(r'\d+', s)`: the first maximal run of decimal digits, or `none`
when the string has no digit (Python then raises `AttributeError` on
`.group(0)`). -/
def firstDigitRun : List Char → Option (List Char)
  | [] => none
  | c :: cs =>
    if c.isDigit then some ((c :: cs).takeWhile Char.isDigit)
    else firstDigitRun cs

/-- Numeric value of a digit run. -/
def digitsToNat (l : List Char) : Nat :=
  l.foldl (fun a c => a * 10 + (c.toNat - 48)) 0

/-- `parse_int(number_str)` of `helpers.py` applied to a string:
`int(re.search(r'\d+', str(number_str).replace(".", "")).group(0))`. -/
def parse_int (s : String) : Option Nat :=
  (firstDigitRun (s.toList.filter (fun c => c ≠ '.'))).map digitsToNat

/-- `parse_int` applied to a raw JSON scalar: Python first applies `str(...)`. -/
def parse_int_j : JVal → Option Nat
  | .jint n => parse_int (toString n)
  | .jstr s => parse_int s

/-- Python's substring test `pat in s`, scanning left to right. -/
def containsSub (pat : List Char) : List Char → Bool
  | [] => pat.isEmpty
  | c :: cs => pat.isPrefixOf (c :: cs) || containsSub pat cs

/-- `parse_size(size_str)` of `helpers.py`: first digit run, then the
`.5` / `½` / `⅔` / `⅓` containment chain. `none` models the
`AttributeError` raised when the string has no digit. -/
def parse_size (s : String) : Option String :=
  match firstDigitRun s.toList with
  | none => none
  | some num =>
    if containsSub ".5".toList s.toList || containsSub ['½'] s.toList then
      some (String.mk (num ++ ".5".toList))
    else if containsSub ['⅔'] s.toList then
      some (String.mk (num ++ " 2/3".toList))
    else if containsSub ['⅓'] s.toList then
      some (String.mk (num ++ " 1/3".toList))
    else
      some (String.mk num)

/-- A calendar date as produced by `datetime.strptime(s, "%d/%m/%y")`. -/
structure PyDate where
  year : Nat
  month : Nat
  day : Nat
deriving DecidableEq

/-- A 1- or 2-digit numeral, as accepted by the `%d`/`%m`/`%y` directives. -/
def shortNumeral : List Char → Option Nat
  | [c] => if c.isDigit then some (c.toNat - 48) else none
  | [c1, c2] =>
    if c1.isDigit && c2.isDigit then some ((c1.toNat - 48) * 10 + (c2.toNat - 48))
    else none
  | _ => none

/-- `datetime.strptime(s, "%d/%m/%y")`: day/month/two-digit-year, with
Python's pivot (years 00–68 → 2000–2068, 69–99 → 1969–1999). `none` models
the `ValueError` on malformed input. -/
def strptime_dmy (s : String) : Option PyDate :=
  match (s.splitOn "/").map String.toList with
  | [d, m, y] =>
    match shortNumeral d, shortNumeral m, shortNumeral y with
    | some dd, some mm, some yy =>
      if 1 ≤ dd ∧ dd ≤ 31 ∧ 1 ≤ mm ∧ mm ≤ 12 then
        some ⟨if yy ≤ 68 then 2000 + yy else 1900 + yy, mm, dd⟩
      else none
    | _, _, _ => none
  | _ => none

/-- The suffix of `l` after the first occurrence of `pat`, or `none` when
`pat` does not occur (the scanning part of `re.findall('/products/(.*?)/', ...)`). -/
def splitAfterFirst (pat : List Char) : List Char → Option (List Char)
  | [] => none
  | c :: cs =>
    if pat.isPrefixOf (c :: cs) then some ((c :: cs).drop pat.length)
    else splitAfterFirst pat cs

/-- `_image_to_sku(image)` of `helpers.py`: the first capture of the
non-greedy pattern `/products/(.*?)/` — the characters between the first
`/products/` and the next `/`; `none` models the `IndexError` when the
pattern does not match. -/
def image_to_sku (image : String) : Option String :=
  match splitAfterFirst "/products/".toList image.toList with
  | none => none
  | some rest =>
    if rest.any (fun c => c = '/') then some (String.mk (rest.takeWhile (fun c => c ≠ '/')))
    else none

/-- `get_sku(image, baseproduct_id)` of `helpers.py`. The `IndexError`
fallback performs a network lookup (`RestocksClient().get_sku_from_id`),
modelled by the explicit `lookup` oracle. -/
def get_sku (lookup : JVal → String) (image : String) (baseproduct_id : JVal) : String :=
  match image_to_sku image with
  | some sku => sku
  | none => lookup baseproduct_id

/-! ## Python `str.replace` (all, non-overlapping, leftmost-first)

Modelled on `List Char` with an explicit structural fuel equal to the
length of the scanned list, which suffices for every nonempty pattern
(each step consumes at least one character). All uses in the source have
a nonempty constant pattern. -/

def pyReplaceAux (pat rep : List Char) : Nat → List Char → List Char
  | 0, l => l
  | _ + 1, [] => []
  | fuel + 1, c :: cs =>
    if pat.isPrefixOf (c :: cs) then
      rep ++ pyReplaceAux pat rep fuel ((c :: cs).drop pat.length)
    else
      c :: pyReplaceAux pat rep fuel cs

/-- `s.replace(pat, rep)` for a nonempty pattern. -/
def pyReplace (pat rep l : List Char) : List Char :=
  pyReplaceAux pat rep l.length l

/-- String-level wrapper for `str.replace`. -/
def pyReplaceStr (s pat rep : String) : String :=
  String.mk (pyReplace pat.toList rep.toList s.toList)

/-! ## `restocks_client/product.py` -/

/-- One entry of the `variants` list handed to `Variant._from_json`
(as built by `get_product_info`): read with `dict.get`, so every field
may be absent. -/
structure RawVariantEntry where
  size : Option String
  price : Option Int
  size_id : Option Int
deriving DecidableEq

/-- The `Variant` named tuple. -/
structure Variant where
  size : Option String
  size_id : Option Int
  price : Option Int
  oos : Bool
deriving DecidableEq

/-- `Variant._from_json(data)`: one `Variant` per entry, with
`oos = not price` (Python truthiness of the optional price). -/
def Variant_from_json (data : List RawVariantEntry) : List Variant :=
  data.map fun entry =>
    { size := entry.size
      price := entry.price
      oos := !truthyOptInt entry.price
      size_id := entry.size_id }

/-- The `Shipping` named tuple. -/
structure Shipping where
  label_url : String
  ship_before : PyDate
deriving DecidableEq

/-- The `shipping` value is a Python dict; modelled as an association list
so that the empty (falsy) dict is representable. -/
def dictGet (d : List (String × String)) (k : String) : Option String :=
  (d.find? (fun p => p.1 = k)).map (fun p => p.2)

/-- `Shipping._from_json(data)`: `strptime(data['ship_before'], "%d/%m/%y")`
first, then `data['label_url']`; `none` models `KeyError`/`ValueError`. -/
def Shipping_from_json (d : List (String × String)) : Option Shipping := do
  let sb ← dictGet d "ship_before"
  let date ← strptime_dmy sb
  let lu ← dictGet d "label_url"
  some { label_url := lu, ship_before := date }

/-- The dict handed to `Product._from_json`: keys `name`, `image`, `slug`
and `id` are accessed directly (always set by every call site), the rest is
read with `dict.get` and may be absent (`none`). -/
structure RawProduct where
  name : String
  image : String
  sku : Option String
  slug : Option String
  id : JVal
  price : Option JVal
  listing_id : Option JVal
  size : Option String
  variants : Option (List RawVariantEntry)
  date : Option String
  shipping : Option (List (String × String))
deriving DecidableEq

/-- The `Product` dataclass. -/
structure Product where
  name : String
  sku : String
  slug : Option String
  image : String
  id : Nat
  price : Option Nat
  listing_id : Option Nat
  size : Option String
  variants : Option (List Variant)
  date : Option PyDate
  shipping : Option Shipping
deriving DecidableEq

/-- `x if data.get(k) else None` followed by a fallible conversion `f`:
`some none` when the value is absent or falsy, a conversion failure
otherwise propagates. -/
def optField {α β : Type} (v : Option α) (truthy : α → Bool) (f : α → Option β) :
    Option (Option β) :=
  match v with
  | some x => if truthy x then (f x).map some else some none
  | none => some none

/-- `Product._from_json(data)`, fields evaluated in the source's keyword
order; `none` models any exception raised while building the record.
`lookup` is the network oracle of the `get_sku` fallback. -/
def Product_from_json (lookup : JVal → String) (data : RawProduct) : Option Product := do
  let name := data.name
  let image := pyReplaceStr data.image "width=80" "width=500"
  let slug := data.slug
  let sku :=
    if truthyStr data.sku then data.sku.getD ""
    else get_sku lookup data.image data.id
  let id ← parse_int_j data.id
  let price ← optField data.price JVal.truthy parse_int_j
  let listing_id ← optField data.listing_id JVal.truthy parse_int_j
  let size ← optField data.size (fun s => s != "") parse_size
  let variants :=
    match data.variants with
    | some l => if l.isEmpty then none else some (Variant_from_json l)
    | none => none
  let date ← optField data.date (fun s => s != "") strptime_dmy
  let shipping ← optField data.shipping (fun d => !d.isEmpty) Shipping_from_json
  some { name := name, sku := sku, slug := slug, image := image, id := id,
         price := price, listing_id := listing_id, size := size,
         variants := variants, date := date, shipping := shipping }

/-! ## `restocks_client/client.py` — response validation -/

/-- The response of one HTTP call: status code plus the parsed body. -/
structure Response (β : Type) where
  status_code : Nat
  body : β
deriving DecidableEq

/-- The exceptions surfaced by `_validate_response`. -/
inductive ApiError where
  | loginException (msg : String)
  | requestException (msg : String)
deriving DecidableEq

/-- `check_login()`: probes `GET /shop/account/profile`; true iff the probe
answers 200. The probe's status code is the explicit argument. -/
def check_login (profile_status : Nat) : Bool :=
  profile_status == 200

/-- The message built for `RequestException` in `_validate_response`. -/
def request_error_message (status : Nat) (msg : Option String) : String :=
  "Request failed with status code " ++ toString status ++
    (match msg with
     | some m => ": " ++ m
     | none => "")

/-- `_validate_response(response, status_code, msg)`. The second component
records whether the `check_login` probe was issued (it is issued exactly
when the status mismatches and is 404 or 401). -/
def validate_response {β : Type} (response : Response β) (status_code : Nat)
    (profile_status : Nat) (msg : Option String) :
    Except ApiError (Response β) × Bool :=
  if response.status_code == status_code then
    (.ok response, false)
  else if response.status_code == 404 || response.status_code == 401 then
    if !check_login profile_status then
      (.error (.loginException "It seems you are not logged in. Please log in and retry."), true)
    else
      (.error (.requestException (request_error_message response.status_code msg)), true)
  else
    (.error (.requestException (request_error_message response.status_code msg)), false)

/-! ## Pagination and the mapped collection endpoints -/

/-- One page of a paginated endpoint: `meta.last_page` and the `data` array. -/
structure Page (α : Type) where
  last_page : Nat
  data : List α

/-- Instrumented result of a pagination loop: which pages were requested,
and the concatenated `data` arrays (`all_data` in the source). -/
structure PagedFetch (α : Type) where
  pagesRequested : List Nat
  allData : List α
deriving DecidableEq

/-- `p['baseproduct']` as used by the collection endpoints. -/
structure Baseproduct where
  name : String
  image_url : String
  slug : Option String
  id : JVal
deriving DecidableEq

/-- One raw item of `GET /shop/account/listings/{method}?page=`. -/
structure ListingItem where
  baseproduct : Baseproduct
  size_name : String
  valuta_price : JVal
  id : JVal
deriving DecidableEq

/-- One raw item of `GET /shop/account/sales/history?page=` and of
`GET /shop/account/sales/sold?page=` (both shapes are read through the
same keys by the source). -/
structure SaleItem where
  baseproduct : Baseproduct
  size_name : String
  payout : JVal
  id : JVal
  date : String
deriving DecidableEq

/-- Pagination loop of `get_current_listings` (`client.py` lines 120–128):
page 1 first, then pages `2..last_page` in order, extending `all_data`. -/
def get_current_listings_agg (srv : Nat → Page ListingItem) : PagedFetch ListingItem :=
  let data := srv 1
  let total_pages := data.last_page
  (List.range' 2 (total_pages - 1)).foldl
    (fun acc page =>
      let d := srv page
      ⟨acc.pagesRequested ++ [page], acc.allData ++ d.data⟩)
    ⟨[1], data.data⟩

/-- Item mapping of `get_current_listings` (lines 130–144). -/
def get_current_listings (lookup : JVal → String) (srv : Nat → Page ListingItem) :
    Option (List Product) :=
  (get_current_listings_agg srv).allData.mapM fun p =>
    Product_from_json lookup
      { name := p.baseproduct.name
        image := p.baseproduct.image_url
        sku := some (get_sku lookup p.baseproduct.image_url p.id)
        slug := p.baseproduct.slug
        id := p.baseproduct.id
        size := some p.size_name
        price := some p.valuta_price
        listing_id := some p.id
        variants := none, date := none, shipping := none }

/-- Pagination loop of `get_history_sales` (lines 160–168). -/
def get_history_sales_agg (srv : Nat → Page SaleItem) : PagedFetch SaleItem :=
  let data := srv 1
  let total_pages := data.last_page
  (List.range' 2 (total_pages - 1)).foldl
    (fun acc page =>
      let d := srv page
      ⟨acc.pagesRequested ++ [page], acc.allData ++ d.data⟩)
    ⟨[1], data.data⟩

/-- Item mapping of `get_history_sales` (lines 170–185). -/
def get_history_sales (lookup : JVal → String) (srv : Nat → Page SaleItem) :
    Option (List Product) :=
  (get_history_sales_agg srv).allData.mapM fun p =>
    Product_from_json lookup
      { name := p.baseproduct.name
        image := p.baseproduct.image_url
        sku := some (get_sku lookup p.baseproduct.image_url p.id)
        slug := none
        id := p.baseproduct.id
        size := some p.size_name
        price := some p.payout
        listing_id := some p.id
        variants := none, date := some p.date, shipping := none }

/-- Pagination loop of `get_current_sales` (lines 202–210). -/
def get_current_sales_agg (srv : Nat → Page SaleItem) : PagedFetch SaleItem :=
  let data := srv 1
  let total_pages := data.last_page
  (List.range' 2 (total_pages - 1)).foldl
    (fun acc page =>
      let d := srv page
      ⟨acc.pagesRequested ++ [page], acc.allData ++ d.data⟩)
    ⟨[1], data.data⟩

/-- Item mapping of `get_current_sales` (lines 212–227). -/
def get_current_sales (lookup : JVal → String) (srv : Nat → Page SaleItem) :
    Option (List Product) :=
  (get_current_sales_agg srv).allData.mapM fun p =>
    Product_from_json lookup
      { name := p.baseproduct.name
        image := p.baseproduct.image_url
        sku := some (get_sku lookup p.baseproduct.image_url p.id)
        slug := none
        id := p.baseproduct.id
        size := some p.size_name
        price := some p.payout
        listing_id := some p.id
        variants := none, date := some p.date, shipping := none }

/-! ## `delete_listing`, `get_size_id`, `list_product` -/

/-- The `json()['data']` dict of the delete / sell endpoints: an optional
`success` entry, read with `.get('success', False)`. -/
structure SuccessData where
  success : Option Bool
deriving DecidableEq

/-- `delete_listing(listing_id)` (lines 255–268): validate against 200,
then `resp.get('success', False)`. -/
def delete_listing (resp : Response SuccessData) (profile_status : Nat) :
    Except ApiError Bool :=
  match (validate_response resp 200 profile_status none).1 with
  | .ok r => .ok (r.body.success.getD false)
  | .error e => .error e

/-- One entry of `GET /shop/baseproducts/{id}/sizes`. -/
structure SizeEntry where
  name : String
  id : Int
deriving DecidableEq

/-- The size canonicalisation chain at the top of `get_size_id`
(lines 518–523): `.5` → `" ½"`, else `1/3` → `"⅓"`, else `2/3` → `"⅔"`. -/
def canon_size (size : String) : String :=
  if containsSub ".5".toList size.toList then
    pyReplaceStr size ".5" " ½"
  else if containsSub "1/3".toList size.toList then
    pyReplaceStr size "1/3" "⅓"
  else if containsSub "2/3".toList size.toList then
    pyReplaceStr size "2/3" "⅔"
  else size

/-- The `for sid in data` search loop of `get_size_id` (lines 525–528):
id of the first entry whose name equals the canonicalised size. -/
def find_size_id (data : List SizeEntry) (size : String) : Option Int :=
  match data with
  | [] => none
  | sid :: rest => if sid.name == size then some sid.id else find_size_id rest size

/-- `get_size_id(baseproduct_id, size)` (lines 498–530); the fetched size
table is the explicit `data` argument. -/
def get_size_id (data : List SizeEntry) (size : String) : Option Int :=
  find_size_id data (canon_size size)

/-- The exceptions `list_product` can surface. -/
inductive ListProductError where
  | sessionException (msg : String)
  | apiError (e : ApiError)
deriving DecidableEq

/-- `list_product` (lines 277–314): resolve the size id, raise
`SessionException("invalid size")` on a falsy result, else POST the listing
and return `data.get('success', False)`. The second component is the list
of issued requests. -/
def list_product (sizesTable : List SizeEntry) (size : String)
    (resp : Response SuccessData) (profile_status : Nat) :
    Except ListProductError Bool × List String :=
  let size_id := get_size_id sizesTable size
  if !truthyOptInt size_id then
    (.error (.sessionException "invalid size"), ["GET /shop/baseproducts/{id}/sizes"])
  else
    match (validate_response resp 200 profile_status none).1 with
    | .ok r =>
      (.ok (r.body.success.getD false),
       ["GET /shop/baseproducts/{id}/sizes", "POST /shop/account/sell"])
    | .error e =>
      (.error (.apiError e),
       ["GET /shop/baseproducts/{id}/sizes", "POST /shop/account/sell"])

/-! ## `search_product` and `get_product_info` -/

/-- One entry of the autocomplete response's `data.products`. -/
structure SearchItem where
  name : String
  image_url : String
  sku : String
  slug : Option String
  id : JVal
deriving DecidableEq

/-- The autocomplete response: status code and `data.products`. -/
structure SearchResponse where
  status_code : Nat
  products : List SearchItem
deriving DecidableEq

/-- Outcome of `search_product`: the `ValueError` raised by the argument
check, an exception escaping `Product._from_json`, or the returned value. -/
inductive SearchOutcome where
  | valueError (msg : String)
  | fromJsonError
  | result (p : Option Product)
deriving DecidableEq

/-- `search_product(sku, name)` (lines 409–449). The second component is
the list of issued requests. -/
def search_product (lookup : JVal → String) (sku name : Option String)
    (resp : SearchResponse) : SearchOutcome × List String :=
  if !(Bool.xor (truthyStr sku) (truthyStr name)) then
    (.valueError "Either sku or name must be provided, but not both", [])
  else
    let query := if truthyStr sku then sku.getD "" else name.getD ""
    let req := "GET /shop/catalog/autocomplete?query=" ++ query ++ "&minimum_price=0"
    if resp.status_code != 200 then
      (.result none, [req])
    else
      match resp.products with
      | [] => (.result none, [req])
      | product :: _ =>
        match Product_from_json lookup
          { name := product.name, image := product.image_url,
            sku := some product.sku, slug := product.slug, id := product.id,
            price := none, listing_id := none, size := none,
            variants := none, date := none, shipping := none } with
        | some p => (.result (some p), [req])
        | none => (.fromJsonError, [req])

/-- One entry of the `sizes` array of `GET /shop/baseproducts?slug=`:
its `name`, `id`, and the `store_price.formatted_amount` of each entry of
its `prices` array. -/
structure SizesEntry where
  name : String
  id : Int
  prices : List String
deriving DecidableEq

/-- The `data` dict of `GET /shop/baseproducts?slug=` as read by
`get_product_info`: `image_urls[0]` and `details[0]['value']` are indexed
(an empty list raises), `sizes` drives the variants loop. -/
structure BaseproductDetail where
  name : String
  id : JVal
  image_urls : List String
  details : List String
  sizes : List SizesEntry
deriving DecidableEq

/-- `get_product_info(slug)` (lines 451–496): build the variants list from
`sizes` (price from the first `prices` entry if any, else `None`), then map
through `Product._from_json`. -/
def get_product_info (lookup : JVal → String) (slug : String)
    (data : BaseproductDetail) : Option Product := do
  let name := data.name
  let baseproduct_id := data.id
  let image_url ← data.image_urls.head?
  let sku ← data.details.head?
  let variants ← data.sizes.mapM fun entry => do
    let size ← parse_size entry.name
    let price ←
      match entry.prices with
      | [] => some none
      | amt :: _ => (parse_int amt).map some
    some ({ size := some size
            price := price.map (fun n => (n : Int))
            size_id := some entry.id } : RawVariantEntry)
  Product_from_json lookup
    { name := name, image := image_url, sku := some sku, slug := some slug,
      id := baseproduct_id, price := none, listing_id := none, size := none,
      variants := some variants, date := none, shipping := none }

/-- The image-width pattern rewritten by `Product._from_json`. -/
def widthPat : List Char := "width=80".toList

/-- The replacement the pattern is rewritten to. -/
def widthRep : List Char := "width=500".toList

/-! ## Pagination lemmas (claim C1) -/

theorem agg_foldl {α : Type} (srv : Nat → Page α) (l : List Nat) (init : PagedFetch α) :
    l.foldl
      (fun acc page =>
        let d := srv page
        ⟨acc.pagesRequested ++ [page], acc.allData ++ d.data⟩) init
    = ⟨init.pagesRequested ++ l, init.allData ++ (l.map (fun p => (srv p).data)).flatten⟩ := by
  induction l generalizing init with
  | nil => simp
  | cons h t ih =>
    simp only [List.foldl_cons, ih, List.map_cons, List.flatten_cons]
    simp [List.append_assoc]

theorem listings_agg_spec (srv : Nat → Page ListingItem) (n : Nat)
    (h : (srv 1).last_page = n) (hn : 1 ≤ n) :
    get_current_listings_agg srv =
      ⟨List.range' 1 n, ((List.range' 1 n).map (fun p => (srv p).data)).flatten⟩ := by
  obtain ⟨m, rfl⟩ : ∃ m, n = m + 1 := ⟨n - 1, by omega⟩
  unfold get_current_listings_agg
  simp only [h]
  rw [agg_foldl]
  simp [List.range'_succ]

theorem history_agg_spec (srv : Nat → Page SaleItem) (n : Nat)
    (h : (srv 1).last_page = n) (hn : 1 ≤ n) :
    get_history_sales_agg srv =
      ⟨List.range' 1 n, ((List.range' 1 n).map (fun p => (srv p).data)).flatten⟩ := by
  obtain ⟨m, rfl⟩ : ∃ m, n = m + 1 := ⟨n - 1, by omega⟩
  unfold get_history_sales_agg
  simp only [h]
  rw [agg_foldl]
  simp [List.range'_succ]

theorem current_agg_spec (srv : Nat → Page SaleItem) (n : Nat)
    (h : (srv 1).last_page = n) (hn : 1 ≤ n) :
    get_current_sales_agg srv =
      ⟨List.range' 1 n, ((List.range' 1 n).map (fun p => (srv p).data)).flatten⟩ := by
  obtain ⟨m, rfl⟩ : ∃ m, n = m + 1 := ⟨n - 1, by omega⟩
  unfold get_current_sales_agg
  simp only [h]
  rw [agg_foldl]
  simp [List.range'_succ]

/-- **C1.** For each of the three paginated fetches (`get_current_listings`,
`get_history_sales`, `get_current_sales`), if page 1 reports
`meta.last_page = n` (with `n ≥ 1`, i.e. page 1 itself exists), the
operation requests exactly the pages `1, 2, …, n` in that order, and the
aggregated list before mapping (`all_data`) is the concatenation of the
pages' `data` arrays in page order. -/
theorem claim_C1_pagination :
    (∀ (srv : Nat → Page ListingItem) (n : Nat),
        (srv 1).last_page = n → 1 ≤ n →
        (get_current_listings_agg srv).pagesRequested = List.range' 1 n ∧
        (get_current_listings_agg srv).allData
          = ((List.range' 1 n).map (fun p => (srv p).data)).flatten) ∧
    (∀ (srv : Nat → Page SaleItem) (n : Nat),
        (srv 1).last_page = n → 1 ≤ n →
        (get_history_sales_agg srv).pagesRequested = List.range' 1 n ∧
        (get_history_sales_agg srv).allData
          = ((List.range' 1 n).map (fun p => (srv p).data)).flatten) ∧
    (∀ (srv : Nat → Page SaleItem) (n : Nat),
        (srv 1).last_page = n → 1 ≤ n →
        (get_current_sales_agg srv).pagesRequested = List.range' 1 n ∧
        (get_current_sales_agg srv).allData
          = ((List.range' 1 n).map (fun p => (srv p).data)).flatten) := by
  refine ⟨fun srv n h hn => ?_, fun srv n h hn => ?_, fun srv n h hn => ?_⟩
  · rw [listings_agg_spec srv n h hn]; exact ⟨rfl, rfl⟩
  · rw [history_agg_spec srv n h hn]; exact ⟨rfl, rfl⟩
  · rw [current_agg_spec srv n h hn]; exact ⟨rfl, rfl⟩

/-- Witness for C1: a stub server reporting `last_page = 3` on every page
yields exactly the three page requests 1, 2, 3 and the three `data`
arrays concatenated in page order. -/
theorem claim_C1_pagination_witness :
    (get_current_listings_agg
        (fun p => ⟨3, [⟨⟨"Shoe", "img", none, .jint 1⟩, "42", .jint 100, .jint (p : Int)⟩]⟩)).pagesRequested
      = List.range' 1 3 ∧
    (get_current_listings_agg
        (fun p => ⟨3, [⟨⟨"Shoe", "img", none, .jint 1⟩, "42", .jint 100, .jint (p : Int)⟩]⟩)).allData
      = ((List.range' 1 3).map
          (fun p => ((fun p => Page.mk 3 [⟨⟨"Shoe", "img", none, .jint 1⟩, "42", .jint 100, .jint (p : Int)⟩]) p).data)).flatten :=
  claim_C1_pagination.1
    (fun p => ⟨3, [⟨⟨"Shoe", "img", none, .jint 1⟩, "42", .jint 100, .jint (p : Int)⟩]⟩)
    3 rfl (by decide)

/-- **C9.** `get_history_sales` and `get_current_sales` apply identical
per-item mapping logic: fed the same sequence of page responses (and the
same SKU-lookup oracle), they produce equal product lists. -/
theorem claim_C9_sales_mapping_equal (lookup : JVal → String) (srv : Nat → Page SaleItem) :
    get_history_sales lookup srv = get_current_sales lookup srv := rfl

/-! ## List prefix/infix helper lemmas (claim C2) -/

theorem prefixOf_correct {α : Type} [DecidableEq α] (l₁ l₂ : List α) :
    l₁.isPrefixOf l₂ = true ↔ l₁ <+: l₂ := by
  induction l₁ generalizing l₂ with
  | nil => simp [List.isPrefixOf]
  | cons a as ih =>
    cases l₂ with
    | nil => simp [List.isPrefixOf]
    | cons b bs => simp [List.isPrefixOf, ih, List.cons_prefix_cons]

theorem prefix_append_cases {α : Type} {x a b : List α} (h : x <+: a ++ b) :
    x <+: a ∨ ∃ x', x = a ++ x' ∧ x' <+: b := by
  induction a generalizing x with
  | nil => exact Or.inr ⟨x, by simp, by simpa using h⟩
  | cons c a' ih =>
    cases x with
    | nil => exact Or.inl ⟨c :: a', rfl⟩
    | cons d x₁ =>
      rw [List.cons_append, List.cons_prefix_cons] at h
      obtain ⟨rfl, h₁⟩ := h
      rcases ih h₁ with h' | ⟨x', rfl, hb⟩
      · exact Or.inl (List.cons_prefix_cons.mpr ⟨rfl, h'⟩)
      · exact Or.inr ⟨x', by simp, hb⟩

theorem prefix_short_of_append {α : Type} {x a b : List α} (h : x <+: a ++ b)
    (hl : x.length ≤ a.length) : x <+: a := by
  rcases prefix_append_cases h with h' | ⟨x', rfl, hb⟩
  · exact h'
  · have hx : x' = [] := by
      rw [List.length_append] at hl
      exact List.length_eq_zero.mp (by omega)
    subst hx
    simp

theorem infix_cons_cases {α : Type} {x t : List α} {c : α} (h : x <:+: c :: t) :
    x <+: c :: t ∨ x <:+: t := by
  obtain ⟨s, u, hsu⟩ := h
  cases s with
  | nil => exact Or.inl ⟨u, by simpa using hsu⟩
  | cons d s' =>
    simp only [List.cons_append] at hsu
    injection hsu with h1 h2
    exact Or.inr ⟨s', u, h2⟩

theorem infix_append_split {α : Type} {x a b : List α} (h : x <:+: a ++ b) :
    x <:+: a ∨ x <:+: b ∨
      ∃ k, 0 < k ∧ k < x.length ∧ x.take k <:+ a ∧ x.drop k <+: b := by
  induction a with
  | nil => exact Or.inr (Or.inl (by simpa using h))
  | cons c a' ih =>
    rcases infix_cons_cases (by simpa using h : x <:+: c :: (a' ++ b)) with hpre | hinf
    · rcases prefix_append_cases (by simpa using hpre : x <+: (c :: a') ++ b) with
        h' | ⟨x', rfl, hb⟩
      · obtain ⟨t, ht⟩ := h'
        exact Or.inl ⟨[], t, by simpa using ht⟩
      · cases x' with
        | nil => exact Or.inl ⟨[], [], by simp⟩
        | cons e x'' =>
          refine Or.inr (Or.inr ⟨(c :: a').length, by simp, ?_, ?_, ?_⟩)
          · simp [List.length_append]
          · rw [List.take_left]
            try exact ⟨[], rfl⟩
          · rw [List.drop_left]
            exact hb
    · rcases ih hinf with h' | h' | ⟨k, h0, hk, ht, hd⟩
      · obtain ⟨s, t, hst⟩ := h'
        exact Or.inl ⟨c :: s, t, by simp [hst]⟩
      · exact Or.inr (Or.inl h')
      · obtain ⟨s, hs⟩ := ht
        exact Or.inr (Or.inr ⟨k, h0, hk, ⟨c :: s, by simp [hs]⟩, hd⟩)

/-! ## No `width=80` survives the rewrite; `width=500` appears (claim C2) -/

theorem pyReplaceAux_width_safe :
    ∀ (f : Nat) (l : List Char), l.length ≤ f →
      (∀ j, j < 8 → widthPat.drop j <+: pyReplaceAux widthPat widthRep f l →
        widthPat.drop j <+: l) ∧
      ¬ widthPat <:+: pyReplaceAux widthPat widthRep f l := by
  intro f
  induction f with
  | zero =>
    intro l hl
    have hnil : l = [] := List.length_eq_zero.mp (Nat.le_zero.mp hl)
    subst hnil
    refine ⟨fun j hj hp => hp, fun hinf => ?_⟩
    have h0 : pyReplaceAux widthPat widthRep 0 [] = [] := rfl
    rw [h0, List.infix_nil] at hinf
    exact absurd hinf (by decide)
  | succ f ih =>
    intro l hl
    cases l with
    | nil =>
      refine ⟨fun j hj hp => hp, fun hinf => ?_⟩
      have h0 : pyReplaceAux widthPat widthRep (f + 1) [] = [] := rfl
      rw [h0, List.infix_nil] at hinf
      exact absurd hinf (by decide)
    | cons c cs =>
      have hcs : cs.length ≤ f := by simpa using hl
      have h8 : widthPat.length = 8 := by decide
      by_cases hpre : widthPat.isPrefixOf (c :: cs) = true
      · have hstep : pyReplaceAux widthPat widthRep (f + 1) (c :: cs)
            = widthRep ++ pyReplaceAux widthPat widthRep f ((c :: cs).drop widthPat.length) := by
          simp [pyReplaceAux, hpre]
        have hdlen : ((c :: cs).drop widthPat.length).length ≤ f := by
          rw [List.length_drop, h8]
          simp only [List.length_cons]
          omega
        obtain ⟨ih1, ih2⟩ := ih ((c :: cs).drop widthPat.length) hdlen
        constructor
        · intro j hj hp
          rw [hstep] at hp
          have hple : (widthPat.drop j).length ≤ widthRep.length := by
            rw [List.length_drop, h8]
            have h9 : widthRep.length = 9 := by decide
            omega
          have hcontra := prefix_short_of_append hp hple
          have hno : ∀ j, j < 8 → ¬ (widthPat.drop j <+: widthRep) := by decide
          exact absurd hcontra (hno j hj)
        · intro hinf
          rw [hstep] at hinf
          rcases infix_append_split hinf with h' | h' | ⟨k, hk0, hk, ht, hd⟩
          · exact absurd h' (by decide)
          · exact ih2 h'
          · rw [h8] at hk
            have hno : ∀ k, k < 8 → 0 < k → ¬ (widthPat.take k <:+ widthRep) := by decide
            exact absurd ht (hno k hk hk0)
      · have hstep : pyReplaceAux widthPat widthRep (f + 1) (c :: cs)
            = c :: pyReplaceAux widthPat widthRep f cs := by
          simp [pyReplaceAux, hpre]
        obtain ⟨ih1, ih2⟩ := ih cs hcs
        have first : ∀ j, j < 8 →
            widthPat.drop j <+: pyReplaceAux widthPat widthRep (f + 1) (c :: cs) →
            widthPat.drop j <+: c :: cs := by
          intro j hj hp
          rw [hstep] at hp
          have hjlen : j < widthPat.length := by omega
          rw [List.drop_eq_getElem_cons hjlen] at hp ⊢
          rw [List.cons_prefix_cons] at hp ⊢
          obtain ⟨hc, htail⟩ := hp
          refine ⟨hc, ?_⟩
          rcases Nat.lt_or_ge (j + 1) 8 with hlt | hge
          · exact ih1 (j + 1) hlt htail
          · have hj1 : j + 1 = 8 := by omega
            have hempty : widthPat.drop (j + 1) = [] := by rw [hj1]; decide
            rw [hempty]
            exact ⟨cs, rfl⟩
        refine ⟨first, fun hinf => ?_⟩
        rw [hstep] at hinf
        rcases infix_cons_cases hinf with hp | hinf'
        · have hfirst := first 0 (by decide) (by rw [hstep]; simpa using hp)
          have hpat : widthPat <+: c :: cs := by simpa using hfirst
          exact absurd ((prefixOf_correct _ _).mpr hpat) hpre
        · exact ih2 hinf'

theorem pyReplaceAux_width_has_rep :
    ∀ (f : Nat) (l : List Char), l.length ≤ f → widthPat <:+: l →
      widthRep <:+: pyReplaceAux widthPat widthRep f l := by
  intro f
  induction f with
  | zero =>
    intro l hl hinf
    have hnil : l = [] := List.length_eq_zero.mp (Nat.le_zero.mp hl)
    subst hnil
    rw [List.infix_nil] at hinf
    exact absurd hinf (by decide)
  | succ f ih =>
    intro l hl hinf
    cases l with
    | nil =>
      rw [List.infix_nil] at hinf
      exact absurd hinf (by decide)
    | cons c cs =>
      by_cases hpre : widthPat.isPrefixOf (c :: cs) = true
      · have hstep : pyReplaceAux widthPat widthRep (f + 1) (c :: cs)
            = widthRep ++ pyReplaceAux widthPat widthRep f ((c :: cs).drop widthPat.length) := by
          simp [pyReplaceAux, hpre]
        rw [hstep]
        exact ⟨[], pyReplaceAux widthPat widthRep f ((c :: cs).drop widthPat.length), rfl⟩
      · have hstep : pyReplaceAux widthPat widthRep (f + 1) (c :: cs)
            = c :: pyReplaceAux widthPat widthRep f cs := by
          simp [pyReplaceAux, hpre]
        rw [hstep]
        rcases infix_cons_cases hinf with hp | hinf'
        · exact absurd ((prefixOf_correct _ _).mpr hp) hpre
        · have hcs : cs.length ≤ f := by simpa using hl
          obtain ⟨s, t, hst⟩ := ih cs hcs hinf'
          exact ⟨c :: s, t, by simp [hst]⟩

theorem pyReplace_no_width80 (l : List Char) :
    ¬ widthPat <:+: pyReplace widthPat widthRep l :=
  (pyReplaceAux_width_safe l.length l (Nat.le_refl _)).2

theorem pyReplace_width_has_rep (l : List Char) (h : widthPat <:+: l) :
    widthRep <:+: pyReplace widthPat widthRep l :=
  pyReplaceAux_width_has_rep l.length l (Nat.le_refl _) h

theorem Product_from_json_image (lookup : JVal → String) (d : RawProduct) (p : Product)
    (h : Product_from_json lookup d = some p) :
    p.image = pyReplaceStr d.image "width=80" "width=500" := by
  simp only [Product_from_json, Option.bind_eq_bind, Option.bind_eq_some,
    Option.some.injEq] at h
  obtain ⟨id, hid, price, hprice, lid, hlid, sz, hsz, dt, hdt, sh, hsh, hp⟩ := h
  subst hp
  rfl

/-- **C2.** Every record produced by `Product._from_json` (through which
every endpoint's records are built) carries the source image URL with
`width=80` rewritten to `width=500`; in particular, if the source URL
contains `width=80`, the produced record's image contains `width=500`
and no longer contains `width=80`. -/
theorem claim_C2_image_width (lookup : JVal → String) (d : RawProduct) (p : Product)
    (hok : Product_from_json lookup d = some p) :
    p.image = pyReplaceStr d.image "width=80" "width=500" ∧
    ("width=80".toList <:+: d.image.toList →
      "width=500".toList <:+: p.image.toList ∧
      ¬ "width=80".toList <:+: p.image.toList) := by
  have himg := Product_from_json_image lookup d p hok
  refine ⟨himg, fun hc => ?_⟩
  have hlist : p.image.toList = pyReplace widthPat widthRep d.image.toList := by
    rw [himg]; rfl
  rw [hlist]
  exact ⟨pyReplace_width_has_rep d.image.toList hc, pyReplace_no_width80 d.image.toList⟩

/-- Witness for C2 at a concrete listing-style record whose image URL
contains `width=80`. -/
theorem claim_C2_image_width_witness :
    "width=500".toList <:+: ("https://img/products/AB123/x.jpg?width=500" : String).toList ∧
    ¬ "width=80".toList <:+: ("https://img/products/AB123/x.jpg?width=500" : String).toList :=
  (claim_C2_image_width (fun _ => "")
      { name := "Jordan", image := "https://img/products/AB123/x.jpg?width=80",
        sku := some "AB123", slug := some "jordan-1", id := .jint 42,
        price := some (.jint 120), listing_id := some (.jint 7), size := some "42",
        variants := none, date := none, shipping := none }
      { name := "Jordan", sku := "AB123", slug := some "jordan-1",
        image := "https://img/products/AB123/x.jpg?width=500", id := 42,
        price := some 120, listing_id := some 7, size := some "42",
        variants := none, date := none, shipping := none }
      (by decide)).2 (by decide)

/-! ## Claim C3: out-of-stock flag vs. price -/

/-- **C3 (counterexample).** A sizes entry whose price is the integer `0`
(non-null, e.g. a formatted amount of `€0.00`) yields a variant with
`oos = true`, both directly in `Variant._from_json` and through the full
`get_product_info` pipeline — refuting "out-of-stock ↔ price is null" and
in particular "price 0 ⇒ out-of-stock false". -/
theorem claim_C3_counterexample :
    Variant_from_json [{ size := some "42", price := some 0, size_id := some 5 }]
      = [{ size := some "42", size_id := some 5, price := some 0, oos := true }] ∧
    ¬ (∀ v ∈ Variant_from_json [{ size := some "42", price := some 0, size_id := some 5 }],
        (v.oos = true ↔ v.price = none)) ∧
    (get_product_info (fun _ => "") "dunk-low"
        { name := "Dunk", id := .jint 9,
          image_urls := ["https://i/products/DD1391/x.jpg"],
          details := ["DD1391"],
          sizes := [{ name := "42", id := 5, prices := ["€0.00"] }] }).map
      (fun p => p.variants)
      = some (some [{ size := some "42", size_id := some 5, price := some 0, oos := true }]) := by
  decide

/-- **C3 (amended).** For every variant produced by the variant
construction (`Variant._from_json`, as used by `get_product_info`), the
out-of-stock flag is true iff the price is falsy: null **or** the
integer `0`. -/
theorem claim_C3_oos_iff_falsy (entries : List RawVariantEntry) (v : Variant)
    (hv : v ∈ Variant_from_json entries) :
    v.oos = true ↔ (v.price = none ∨ v.price = some 0) := by
  unfold Variant_from_json at hv
  obtain ⟨e, he, rfl⟩ := List.mem_map.mp hv
  cases hp : e.price with
  | none => simp [truthyOptInt, hp]
  | some n =>
    by_cases hn : n = 0 <;> simp [truthyOptInt, hp, hn]

/-- Witness for the amended C3 at a concrete entry with price `0`. -/
theorem claim_C3_oos_iff_falsy_witness :
    (({ size := some "42", size_id := some 5, price := some 0, oos := true } : Variant).oos = true
      ↔ (({ size := some "42", size_id := some 5, price := some 0, oos := true } : Variant).price = none
          ∨ ({ size := some "42", size_id := some 5, price := some 0, oos := true } : Variant).price = some 0)) :=
  claim_C3_oos_iff_falsy [{ size := some "42", price := some 0, size_id := some 5 }]
    { size := some "42", size_id := some 5, price := some 0, oos := true } (by decide)

/-! ## Claim C4: `search_product` exclusive-or precondition -/

/-- **C4.** `search_product` raises
`ValueError` (the spec's ValidationError) exactly when the truthiness
exclusive-or of `sku` and `name` fails — and in that case issues no
request; when exactly one of the two is truthy it issues exactly the one
autocomplete request. -/
theorem claim_C4_search_xor (lookup : JVal → String) (sku name : Option String)
    (resp : SearchResponse) :
    ((search_product lookup sku name resp).1
        = .valueError "Either sku or name must be provided, but not both"
      ↔ Bool.xor (truthyStr sku) (truthyStr name) = false) ∧
    (Bool.xor (truthyStr sku) (truthyStr name) = false →
      (search_product lookup sku name resp).2 = []) ∧
    (Bool.xor (truthyStr sku) (truthyStr name) = true →
      (search_product lookup sku name resp).2
        = ["GET /shop/catalog/autocomplete?query="
            ++ (if truthyStr sku then sku.getD "" else name.getD "")
            ++ "&minimum_price=0"]) := by
  cases hx : Bool.xor (truthyStr sku) (truthyStr name) with
  | false => simp [search_product, hx]
  | true =>
    simp only [search_product, hx, Bool.not_true, Bool.false_eq_true, if_false,
      Bool.true_eq_false, false_implies, implies_true, true_implies, and_true, true_and]
    constructor
    · split
      · simp
      · split
        · simp
        · split <;> simp
    · split
      · simp
      · split
        · simp
        · split <;> simp

/-- Witness for C4: with only `sku` truthy, exactly one request is issued. -/
theorem claim_C4_search_xor_witness :
    (search_product (fun _ => "") (some "DD1391-100") none ⟨200, []⟩).2
      = ["GET /shop/catalog/autocomplete?query="
          ++ (if truthyStr (some "DD1391-100") then (some "DD1391-100").getD ""
              else (none : Option String).getD "")
          ++ "&minimum_price=0"] :=
  (claim_C4_search_xor (fun _ => "") (some "DD1391-100") none ⟨200, []⟩).2.2 (by decide)

/-! ## Claim C5: `_validate_response` -/

/-- **C5.** On a status match the response is returned unchanged and no
login probe is made. On a mismatch with status 404 or 401 the login
re-check is probed, and `LoginException` ("not logged in", the spec's
AuthenticationError) is raised exactly when the re-check fails, a
`RequestException` carrying the status code and the caller's diagnostic
message otherwise. On any other mismatch a `RequestException` is raised
without probing. -/
theorem claim_C5_validate_response {β : Type} (resp : Response β) (expected : Nat)
    (profile_status : Nat) (msg : Option String) :
    (resp.status_code = expected →
      validate_response resp expected profile_status msg = (.ok resp, false)) ∧
    (resp.status_code ≠ expected → (resp.status_code = 404 ∨ resp.status_code = 401) →
      (validate_response resp expected profile_status msg).2 = true ∧
      (check_login profile_status = false →
        (validate_response resp expected profile_status msg).1
          = .error (.loginException "It seems you are not logged in. Please log in and retry.")) ∧
      (check_login profile_status = true →
        (validate_response resp expected profile_status msg).1
          = .error (.requestException (request_error_message resp.status_code msg)))) ∧
    (resp.status_code ≠ expected → ¬(resp.status_code = 404 ∨ resp.status_code = 401) →
      validate_response resp expected profile_status msg
        = (.error (.requestException (request_error_message resp.status_code msg)), false)) := by
  refine ⟨fun h => by simp [validate_response, h], fun h h4 => ?_, fun h h4 => ?_⟩
  · have hb : (resp.status_code == expected) = false := by simp [h]
    have hb4 : (resp.status_code == 404 || resp.status_code == 401) = true := by
      rcases h4 with h4 | h4 <;> simp [h4]
    cases hcl : check_login profile_status <;>
      simp [validate_response, hb, hb4, hcl]
  · have hb : (resp.status_code == expected) = false := by simp [h]
    have hb4 : (resp.status_code == 404 || resp.status_code == 401) = false := by
      simp only [not_or] at h4
      simp [h4.1, h4.2]
    simp [validate_response, hb, hb4]

/-- Witness for C5: status 404, expected 200, failing login re-check. -/
theorem claim_C5_validate_response_witness :
    (validate_response (⟨404, 0⟩ : Response Nat) 200 500 (some "boom")).1
      = .error (.loginException "It seems you are not logged in. Please log in and retry.") :=
  ((claim_C5_validate_response (⟨404, 0⟩ : Response Nat) 200 500 (some "boom")).2.1
      (by decide) (by decide)).2.1 (by decide)

/-! ## Claim C6: `delete_listing` -/

theorem validate_response_mismatch {β : Type} (resp : Response β)
    (expected profile_status : Nat) (msg : Option String)
    (h : resp.status_code ≠ expected) :
    ∃ e, (validate_response resp expected profile_status msg).1 = .error e := by
  have hb : (resp.status_code == expected) = false := by simp [h]
  unfold validate_response
  rw [hb]
  simp only [Bool.false_eq_true, if_false]
  split
  · split <;> exact ⟨_, rfl⟩
  · exact ⟨_, rfl⟩

/-- **C6.** `delete_listing` returns `true` iff the HTTP status is 200 and
the body's `data.success` is `some true`; on any 200 response it returns
`data.get('success', False)` without raising (so a missing key yields
`false`). -/
theorem claim_C6_delete_listing (resp : Response SuccessData) (profile_status : Nat) :
    (delete_listing resp profile_status = .ok true
      ↔ (resp.status_code = 200 ∧ resp.body.success = some true)) ∧
    (resp.status_code = 200 →
      delete_listing resp profile_status = .ok (resp.body.success.getD false)) := by
  by_cases h : resp.status_code = 200
  · have hok : delete_listing resp profile_status = .ok (resp.body.success.getD false) := by
      unfold delete_listing
      simp [validate_response, h]
    refine ⟨?_, fun _ => hok⟩
    rw [hok]
    cases hs : resp.body.success with
    | none => simp [h, hs]
    | some b => cases b <;> simp [h, hs]
  · obtain ⟨e, he⟩ := validate_response_mismatch resp 200 profile_status none h
    have herr : delete_listing resp profile_status = .error e := by
      unfold delete_listing
      rw [he]
    rw [herr]
    simp [h]

/-- Witness for C6: a 200 response with the `success` key absent returns
`false` (and does not raise). -/
theorem claim_C6_delete_listing_witness :
    delete_listing (⟨200, ⟨none⟩⟩ : Response SuccessData) 200
      = .ok ((none : Option Bool).getD false) :=
  (claim_C6_delete_listing ⟨200, ⟨none⟩⟩ 200).2 rfl

/-! ## Claim C7: `list_product` size resolution -/

/-- **C7 (counterexample).** With a sizes table whose matching entry has
id `0`, `get_size_id` resolves the size ("42" matches the entry named
"42"), yet `list_product` still raises `SessionException("invalid size")`
(the spec's ValidationError): the guard tests Python truthiness of the id,
not resolution success — refuting "raises exactly when the resolution
yields no match". -/
theorem claim_C7_counterexample :
    get_size_id [{ name := "42", id := 0 }] "42" = some 0 ∧
    (list_product [{ name := "42", id := 0 }] "42"
        (⟨200, ⟨some true⟩⟩ : Response SuccessData) 200).1
      = .error (.sessionException "invalid size") := by
  exact ⟨rfl, rfl⟩

theorem find_size_id_eq_find (t : List SizeEntry) (s : String) :
    find_size_id t s = (t.find? (fun e => e.name == s)).map SizeEntry.id := by
  induction t with
  | nil => rfl
  | cons a r ih =>
    by_cases h : a.name == s <;> simp [find_size_id, List.find?, h, ih]

/-- **C7 (amended).** `list_product` raises
`SessionException("invalid size")` exactly when `get_size_id` resolves to
no match **or to the falsy id `0`**, and in that case the listing-creation
POST is never issued; `get_size_id` itself returns the id of the first
table entry whose name equals the canonicalised size (`'.5'` → half glyph,
`1/3`/`2/3` → Unicode fraction glyphs), or null when none matches. -/
theorem claim_C7_invalid_size (table : List SizeEntry) (size : String)
    (resp : Response SuccessData) (profile_status : Nat) :
    ((list_product table size resp profile_status).1
        = .error (.sessionException "invalid size")
      ↔ (get_size_id table size = none ∨ get_size_id table size = some 0)) ∧
    ((get_size_id table size = none ∨ get_size_id table size = some 0) →
      (list_product table size resp profile_status).2
        = ["GET /shop/baseproducts/{id}/sizes"]) ∧
    get_size_id table size
      = (table.find? (fun e => e.name == canon_size size)).map SizeEntry.id := by
  refine ⟨?_, ?_, find_size_id_eq_find table (canon_size size)⟩
  · cases hsid : get_size_id table size with
    | none => simp [list_product, truthyOptInt, hsid]
    | some n =>
      by_cases hn : n = 0
      · simp [list_product, truthyOptInt, hsid, hn]
      · have hb : (n != 0) = true := by simpa using hn
        simp only [list_product, hsid, truthyOptInt, hb, Bool.not_true,
          Bool.false_eq_true, if_false]
        constructor
        · intro hbad
          split at hbad <;> simp at hbad
        · rintro (hbad | hbad)
          · exact absurd hbad (by simp)
          · exact absurd (Option.some.inj hbad) hn
  · intro hfalsy
    have hb : truthyOptInt (get_size_id table size) = false := by
      rcases hfalsy with h | h <;> simp [truthyOptInt, h]
    simp [list_product, hb]

/-- Witness for the amended C7: an unmatched size yields the error before
any listing-creation request. -/
theorem claim_C7_invalid_size_witness :
    (list_product [{ name := "43", id := 11 }] "42"
        (⟨200, ⟨some true⟩⟩ : Response SuccessData) 200).2
      = ["GET /shop/baseproducts/{id}/sizes"] :=
  (claim_C7_invalid_size [{ name := "43", id := 11 }] "42" ⟨200, ⟨some true⟩⟩ 200).2.1
    (by decide)

/-! ## Claim C8: `parse_size` -/

theorem firstDigitRun_of_any (l : List Char) (h : l.any Char.isDigit = true) :
    ∃ num, firstDigitRun l = some num := by
  induction l with
  | nil => simp at h
  | cons c cs ih =>
    by_cases hc : c.isDigit
    · exact ⟨(c :: cs).takeWhile Char.isDigit, by simp [firstDigitRun, hc]⟩
    · have hcs : cs.any Char.isDigit = true := by simpa [hc] using h
      obtain ⟨num, hn⟩ := ih hcs
      exact ⟨num, by simp [firstDigitRun, hc, hn]⟩

/-- **C8.** For every input string containing at least one digit,
`parse_size` returns the first digit run, with `.5` appended when the
input contains `.5` or `½`, with `" 2/3"` appended when it contains `⅔`,
with `" 1/3"` appended when it contains `⅓`, and bare otherwise; the
spec's four examples evaluate as stated. -/
theorem claim_C8_parse_size (s : String) (h : s.toList.any Char.isDigit = true) :
    (∃ num, firstDigitRun s.toList = some num ∧
      parse_size s = some (String.mk (
        if containsSub ".5".toList s.toList || containsSub ['½'] s.toList then
          num ++ ".5".toList
        else if containsSub ['⅔'] s.toList then num ++ " 2/3".toList
        else if containsSub ['⅓'] s.toList then num ++ " 1/3".toList
        else num))) ∧
    parse_size "42 ½" = some "42.5" ∧ parse_size "42 ⅔" = some "42 2/3" ∧
    parse_size "42 ⅓" = some "42 1/3" ∧ parse_size "42" = some "42" := by
  refine ⟨?_, by decide, by decide, by decide, by decide⟩
  obtain ⟨num, hn⟩ := firstDigitRun_of_any s.toList h
  refine ⟨num, hn, ?_⟩
  unfold parse_size
  rw [hn]
  split_ifs <;> rfl

/-- Witness for C8 at the concrete input `"42 ½"`. -/
theorem claim_C8_parse_size_witness :
    (∃ num, firstDigitRun ("42 ½" : String).toList = some num ∧
      parse_size "42 ½" = some (String.mk (
        if containsSub ".5".toList ("42 ½" : String).toList
            || containsSub ['½'] ("42 ½" : String).toList then
          num ++ ".5".toList
        else if containsSub ['⅔'] ("42 ½" : String).toList then num ++ " 2/3".toList
        else if containsSub ['⅓'] ("42 ½" : String).toList then num ++ " 1/3".toList
        else num))) ∧
    parse_size "42 ½" = some "42.5" ∧ parse_size "42 ⅔" = some "42 2/3" ∧
    parse_size "42 ⅓" = some "42 1/3" ∧ parse_size "42" = some "42" :=
  claim_C8_parse_size "42 ½" (by decide)

/-! ## Claim C10: truthiness collapse of optional fields -/

/-- **C10.** `Product._from_json` tests optional fields by truthiness,
not presence: a `price` key present with the falsy value `0` or `""`
produces exactly the same result as an absent key (so the record's price
is null); the same collapse holds for `listing_id`, `size`, `date`,
`variants` (empty list) and `shipping` (empty dict). -/
theorem claim_C10_falsy_collapse (lookup : JVal → String) (d : RawProduct) :
    Product_from_json lookup { d with price := some (.jint 0) }
      = Product_from_json lookup { d with price := none } ∧
    Product_from_json lookup { d with price := some (.jstr "") }
      = Product_from_json lookup { d with price := none } ∧
    (∀ p, Product_from_json lookup { d with price := some (.jint 0) } = some p →
      p.price = none) ∧
    Product_from_json lookup { d with listing_id := some (.jint 0) }
      = Product_from_json lookup { d with listing_id := none } ∧
    Product_from_json lookup { d with listing_id := some (.jstr "") }
      = Product_from_json lookup { d with listing_id := none } ∧
    Product_from_json lookup { d with size := some "" }
      = Product_from_json lookup { d with size := none } ∧
    Product_from_json lookup { d with date := some "" }
      = Product_from_json lookup { d with date := none } ∧
    Product_from_json lookup { d with variants := some [] }
      = Product_from_json lookup { d with variants := none } ∧
    Product_from_json lookup { d with shipping := some [] }
      = Product_from_json lookup { d with shipping := none } := by
  refine ⟨rfl, rfl, ?_, rfl, rfl, rfl, rfl, rfl, rfl⟩
  intro p hp
  simp only [Product_from_json, Option.bind_eq_bind, Option.bind_eq_some,
    Option.some.injEq] at hp
  obtain ⟨id, hid, price, hprice, lid, hlid, sz, hsz, dt, hdt, sh, hsh, hp⟩ := hp
  subst hp
  simp only [optField, JVal.truthy] at hprice
  simp at hprice
  simp [← hprice]

/-- Witness for C10: a concrete record whose `price` key holds `0` maps to
a record with null price. -/
theorem claim_C10_falsy_collapse_witness :
    ({ name := "X", sku := "AB12", slug := none,
       image := "https://i/products/AB12/x.jpg", id := 3, price := none,
       listing_id := none, size := none, variants := none, date := none,
       shipping := none } : Product).price = none :=
  (claim_C10_falsy_collapse (fun _ => "")
      { name := "X", image := "https://i/products/AB12/x.jpg", sku := some "AB12",
        slug := none, id := .jint 3, price := some (.jint 99), listing_id := none,
        size := none, variants := none, date := none, shipping := none }).2.2.1
    { name := "X", sku := "AB12", slug := none,
      image := "https://i/products/AB12/x.jpg", id := 3, price := none,
      listing_id := none, size := none, variants := none, date := none,
      shipping := none }
    (by decide)

end Restocks
